import Mathlib

/-!
Shallow embedding of the Neuvol core: the crossover (pairing) engine
(`neuvol/crossing/pairing_modules/pairing_modules_interface.py`), the genotype
factory (`neuvol/architecture/cradle.py` and
`neuvol/architecture/architecture_interface.py`) and the fitness evaluator
(`neuvol/evaluation/evaluation.py`).

Python objects hold *references* to mutable containers (lists, dicts), and the
pairing code rebinds the child's attributes to the parents' containers before
writing elements/keys through them.  We therefore model a heap: a `Store` maps
architecture references to lists of layer genes and dict references to
string-keyed maps, and an `Individ` shell holds three references.  `np.random`
draws are modelled by passing the draw as an extra argument consumed through
`np_random_choice`, which, like `np.random.choice`, fails on an empty
candidate list.  Python exceptions are modelled with `Except String`.
-/

deriving instance DecidableEq for Except

/-- A layer gene: a `type` tag plus an opaque parameter payload
(`layer.type` is the only field the pairing code reads). -/
structure Layer where
  type : String
  payload : Nat
deriving DecidableEq, Repr

/-- Default layer used to totalise list reads that the Python code performs
only at indices known to be in range. -/
def defaultLayer : Layer := ⟨"", 0⟩

/-- A mutable individual shell: three references into the store, one for the
`architecture` list and one for each of the two dicts
(`training_parameters`, `data_processing`).  Attribute assignment in Python
(`individ.architecture = father.architecture`) rebinds the reference. -/
structure Individ where
  architecture : Nat
  training_parameters : Nat
  data_processing : Nat
deriving DecidableEq, Repr

/-- The heap: architecture references name lists of layer genes, dict
references name string-keyed integer maps (the values the core reads —
`sentences_length`, `epochs`, `batchs` — are numeric). -/
structure Store where
  arch : Nat → List Layer
  dict : Nat → String → Nat

/-- `σ.dict[r][k] = v`: in-place update of one key of one dict cell
(Python `d[k] = v` through any alias of the dict). -/
def writeDictKey (σ : Store) (r : Nat) (k : String) (v : Nat) : Store :=
  { σ with dict := fun r' k' => if r' = r ∧ k' = k then v else σ.dict r' k' }

/-- `σ.arch[r] = l`: in-place replacement of one architecture cell
(Python `lst[i] = g` through any alias is `writeArch` with `List.set`). -/
def writeArch (σ : Store) (r : Nat) (l : List Layer) : Store :=
  { σ with arch := fun r' => if r' = r then l else σ.arch r' }

/-- `np.random.choice(l)`: raises `ValueError` on an empty candidate list,
otherwise returns the element selected by the draw `r` (any element is
reachable for a suitable `r`). -/
def np_random_choice (l : List α) (r : Nat) : Except String α :=
  match l with
  | [] => .error "ValueError: a must be non-empty"
  | x :: xs => .ok ((x :: xs).getD (r % (x :: xs).length) x)

/-- Python `[i for i in range(1, n)]`: the list `[1, …, n-1]`. -/
def pyRange1 (n : Nat) : List Nat := List.range' 1 (n - 1)

/-- The candidate body-index list `[i for i in range(1, len(parent.architecture))]`
used by `father_architecture_layers_pairing` for both the father-side target
index and the mother-side source index. -/
def layers_candidates (σ : Store) (parent : Individ) : List Nat :=
  pyRange1 (σ.arch parent.architecture).length

/-- `father_architecture_pairing` (pairing_modules_interface.py lines 39-50):
father's architecture and mother's training and data; then
`individ.data_processing['sentences_length'] = father.data_processing['sentences_length']`
— a keyed write through the child's alias of **mother's** dict. -/
def father_architecture_pairing (σ : Store) (individ father mother : Individ) :
    Store × Individ :=
  let individ1 := { individ with
    architecture := father.architecture,
    training_parameters := mother.training_parameters,
    data_processing := mother.data_processing }
  let σ1 := writeDictKey σ individ1.data_processing "sentences_length"
    (σ.dict father.data_processing "sentences_length")
  (σ1, individ1)

/-- `father_architecture_layers_pairing` (lines 53-65): draw a father-side
target index and a mother-side source index, each from `range(1, len(arch))`,
then overwrite the father-architecture element at the target index with
mother's gene at the source index — an element write through the child's
alias of **father's** list. -/
def father_architecture_layers_pairing (σ : Store) (individ father mother : Individ)
    (rf rm : Nat) : Except String (Store × Individ) :=
  match np_random_choice (layers_candidates σ father) rf with
  | .error e => .error e
  | .ok changes_layer =>
    match np_random_choice (layers_candidates σ mother) rm with
    | .error e => .error e
    | .ok alter_layer =>
      let individ1 := { individ with architecture := father.architecture }
      let σ1 := writeArch σ individ1.architecture
        ((σ.arch individ1.architecture).set changes_layer
          ((σ.arch mother.architecture).getD alter_layer defaultLayer))
      let individ2 := { individ1 with
        training_parameters := father.training_parameters,
        data_processing := father.data_processing }
      .ok (σ1, individ2)

/-- The body-gene type list `[layer.type for layer in parent.architecture[1:-1]]`. -/
def body_types (σ : Store) (parent : Individ) : List String :=
  (((σ.arch parent.architecture).drop 1).dropLast).map Layer.type

/-- `list(set(tmp_father) & set(tmp_mother))`: the common body-gene types,
each once (iteration order of a Python set is unspecified; the random pick
over it makes any order observationally equivalent). -/
def common_types (σ : Store) (father mother : Individ) : List String :=
  ((body_types σ father).filter (fun t => t ∈ body_types σ mother)).dedup

/-- `father_architecture_parameter_pairing` (lines 68-96): compute the common
body-gene types of the parents; the `if not intersections` branch assigns
father's references to the child but does **not** return, so control always
reaches `np.random.choice(list(intersections))`, which raises `ValueError`
when the intersection is empty.  Otherwise replace the father gene at the
first father-occurrence of the picked type with mother's gene at its first
mother-occurrence (indices offset by +1 for the skipped first gene) — an
element write through the child's alias of **father's** list. -/
def father_architecture_parameter_pairing (σ : Store) (individ father mother : Individ)
    (rt : Nat) : Except String (Store × Individ) :=
  match np_random_choice (common_types σ father mother) rt with
  | .error e => .error e
  | .ok intersected_layer =>
    let changes_layer := (body_types σ father).indexOf intersected_layer + 1
    let alter_layer := (body_types σ mother).indexOf intersected_layer + 1
    let individ1 := { individ with architecture := father.architecture }
    let σ1 := writeArch σ individ1.architecture
      ((σ.arch individ1.architecture).set changes_layer
        ((σ.arch mother.architecture).getD alter_layer defaultLayer))
    let individ2 := { individ1 with
      training_parameters := father.training_parameters,
      data_processing := father.data_processing }
    .ok (σ1, individ2)

/-- `father_data_processing_pairing` (lines 99-111): father's data processing,
mother's architecture and training; then `individ.architecture[0] = father.architecture[0]`
— an element write through the child's alias of **mother's** list. -/
def father_data_processing_pairing (σ : Store) (individ father mother : Individ) :
    Store × Individ :=
  let individ1 := { individ with
    architecture := mother.architecture,
    training_parameters := mother.training_parameters,
    data_processing := father.data_processing }
  let σ1 := writeArch σ individ1.architecture
    ((σ.arch individ1.architecture).set 0
      ((σ.arch father.architecture).getD 0 defaultLayer))
  (σ1, individ1)

/-- `father_training_pairing` (lines 114-122): father's training, mother's
architecture and data; pure reference rebinding, no heap write at all. -/
def father_training_pairing (σ : Store) (individ father mother : Individ) :
    Store × Individ :=
  (σ, { individ with
    architecture := mother.architecture,
    training_parameters := father.training_parameters,
    data_processing := mother.data_processing })

/-- `peform_pairing` (lines 17-36, source spelling kept): dispatch on the
strategy tag; an unrecognized tag returns `None` (modelled `none`) without
touching the store and without raising. -/
def peform_pairing (σ : Store) (individ father mother : Individ)
    (pairing_type : String) (rf rm rt : Nat) :
    Except String (Store × Option Individ) :=
  if pairing_type = "father_architecture" then
    let p := father_architecture_pairing σ individ father mother
    .ok (p.1, some p.2)
  else if pairing_type = "father_architecture_layers" then
    (father_architecture_layers_pairing σ individ father mother rf rm).map
      (fun p => (p.1, some p.2))
  else if pairing_type = "father_architecture_parameter" then
    (father_architecture_parameter_pairing σ individ father mother rt).map
      (fun p => (p.1, some p.2))
  else if pairing_type = "father_training" then
    let p := father_training_pairing σ individ father mother
    .ok (p.1, some p.2)
  else if pairing_type = "father_data_processing" then
    let p := father_data_processing_pairing σ individ father mother
    .ok (p.1, some p.2)
  else
    .ok (σ, none)

/-! ## Genotype factory (`architecture/cradle.py` and
`architecture/architecture_interface.py`) -/

/-- The concrete individual flavors the two factory functions construct
(`IndividText` / `IndividImage`), recording the arguments the factory
forwards. -/
inductive IndividFlavor where
  | individText (epochs : Nat) (task_type : String)
  | individImage (epochs : Nat) (task_type : String)
deriving DecidableEq, Repr

namespace Cradle

/-- `cradle` from `architecture/cradle.py` (lines 18-34): dispatch on
`data_type`, raising `ValueError` for any value other than `'text'` /
`'image'` (message built from two adjacent string literals, hence no space
after the period). -/
def cradle (epochs : Nat) (data_type task_type : String) :
    Except String IndividFlavor :=
  if data_type = "text" then .ok (.individText epochs task_type)
  else if data_type = "image" then .ok (.individImage epochs task_type)
  else .error "ValueError: Incorrect \"data_type\" argument.Available values: \"text\", \"image\""

end Cradle

namespace ArchitectureInterface

/-- `cradle` from `architecture/architecture_interface.py` (lines 18-26):
same dispatch but with **no** `else` branch, so an unrecognized `data_type`
falls off the end of the function and returns `None`. -/
def cradle (stage : Nat) (data_type task_type : String) :
    Except String (Option IndividFlavor) :=
  if data_type = "text" then .ok (some (.individText stage task_type))
  else if data_type = "image" then .ok (some (.individImage stage task_type))
  else .ok none

end ArchitectureInterface

/-! ## Fitness evaluator (`evaluation/evaluation.py`)

External collaborators (Keras model, sklearn `roc_curve` / `f1_score`,
`StratifiedKFold`) are passed in as function parameters; everything the
evaluator itself computes is embedded concretely. -/

/-- The `device` property setter (evaluation.py lines 130-144):
`self._device = device` runs **first**, then the value is checked; on an
unrecognized value the `ValueError` is raised with the raw string already
stored.  Returns the final `_device` field and the raised error, if any.
The previous field value `old_device` is never read. -/
def device_setter (old_device device : String) : String × Option String :=
  let d0 := device
  if device = "cpu" then ("/device:CPU:0", none)
  else if device = "gpu" then ("/device:GPU:0", none)
  else (d0, some "ValueError: Incorrect \"device\" argument.Available values: \"gpu\", \"cpu\"")

/-- Fold-index construction in `Evaluator.fit` (lines 171-178): stratified
k-fold when `kfold_number != 1`, otherwise the single degenerate fold
`[[list(range(n))] * 2]` whose train and test index lists are both the full
range.  The stratified splitter is external (`sklearn`), passed in. -/
def fit_kfold_generator (stratified : List (List Nat × List Nat))
    (kfold_number n : Nat) : List (List Nat × List Nat) :=
  if kfold_number ≠ 1 then stratified
  else [(List.range n, List.range n)]

/-- Fold-index construction in `Evaluator.fit_generator` (lines 232-239):
textually the same dispatch as in `fit`. -/
def fit_generator_kfold_generator (stratified : List (List Nat × List Nat))
    (kfold_number n : Nat) : List (List Nat × List Nat) :=
  if kfold_number ≠ 1 then stratified
  else [(List.range n, List.range n)]

/-- The per-fold loop of `Evaluator.fit` (lines 180-215): each fold's
compile/fit/predict is the external `trainFold`; its successful result is the
fold's `(predicted, real)` lists, which are appended to the accumulators.
Any exception inside the `try` block is caught and re-raised as
`ArithmeticError('Tensor could not be compiled')`, aborting the whole loop. -/
def fit_fold_loop (trainFold : List Nat × List Nat → Except String (List π × List π)) :
    List (List Nat × List Nat) → Except String (List π × List π)
  | [] => .ok ([], [])
  | fold :: rest =>
    match trainFold fold with
    | .error _ => .error "ArithmeticError: Tensor could not be compiled"
    | .ok (p, r) =>
      match fit_fold_loop trainFold rest with
      | .error e => .error e
      | .ok (ps, rs) => .ok (p ++ ps, r ++ rs)

/-- The per-fold loop of `Evaluator.fit_generator` (lines 241-294): same
accumulation but with **no** `try`/`except`, so a fold's exception propagates
unchanged and aborts the loop. -/
def fit_generator_fold_loop
    (trainFold : List Nat × List Nat → Except String (List π × List π)) :
    List (List Nat × List Nat) → Except String (List π × List π)
  | [] => .ok ([], [])
  | fold :: rest =>
    match trainFold fold with
    | .error e => .error e
    | .ok (p, r) =>
      match fit_generator_fold_loop trainFold rest with
      | .error e => .error e
      | .ok (ps, rs) => .ok (p ++ ps, r ++ rs)

/-- `np.trapz(y, x)`: trapezoidal integration. -/
def np_trapz : List ℚ → List ℚ → ℚ
  | y1 :: y2 :: ys, x1 :: x2 :: xs =>
    (x2 - x1) * (y1 + y2) / 2 + np_trapz (y2 :: ys) (x2 :: xs)
  | _, _ => 0

/-- `np.all(np.diff(x) >= 0)`. -/
def diffs_nonneg : List ℚ → Bool
  | x1 :: x2 :: xs => decide (x1 ≤ x2) && diffs_nonneg (x2 :: xs)
  | _ => true

/-- `np.all(np.diff(x) <= 0)`. -/
def diffs_nonpos : List ℚ → Bool
  | x1 :: x2 :: xs => decide (x2 ≤ x1) && diffs_nonpos (x2 :: xs)
  | _ => true

/-- `sklearn.metrics.auc(x, y)`: needs at least two points; integrates with
direction `+1` when `x` is non-decreasing, `-1` when non-increasing, and
raises otherwise. -/
def sklearn_auc (x y : List ℚ) : Except String ℚ :=
  if x.length < 2 then
    .error "ValueError: At least 2 points are needed to compute area under curve"
  else if diffs_nonneg x then .ok (np_trapz y x)
  else if diffs_nonpos x then .ok (-(np_trapz y x))
  else .error "ValueError: x is neither increasing nor decreasing"

/-- The per-class body of the `AUC` branch of `test_classification`
(lines 327-333), iterated over the class indices: try the external
`roc_curve` on column `i`; on any exception substitute
`np.zeros(len(real_out)), np.zeros(len(predicted_out))`; then apply `auc`
to whichever curve is in hand and append its area. -/
def auc_areas (roc_curve_col : Nat → Except String (List ℚ × List ℚ))
    (nreal npred : Nat) : List Nat → Except String (List ℚ)
  | [] => .ok []
  | i :: is =>
    let curve := match roc_curve_col i with
      | .ok c => c
      | .error _ => (List.replicate nreal (0 : ℚ), List.replicate npred (0 : ℚ))
    match sklearn_auc curve.1 curve.2 with
    | .error e => .error e
    | .ok a =>
      match auc_areas roc_curve_col nreal npred is with
      | .error e => .error e
      | .ok rest => .ok (a :: rest)

/-- `Evaluator.test_classification` (lines 303-338): the `f1` branch sums the
externally computed per-class F1 scores; the `AUC` branch sums the per-class
ROC areas over `range(classes)`; any other measure raises `TypeError`. -/
def test_classification (fitness_measure : String) (f1_scores : List ℚ)
    (roc_curve_col : Nat → Except String (List ℚ × List ℚ))
    (nreal npred classes : Nat) : Except String ℚ :=
  if fitness_measure = "f1" then .ok f1_scores.sum
  else if fitness_measure = "AUC" then
    match auc_areas roc_curve_col nreal npred (List.range classes) with
    | .error e => .error e
    | .ok areas => .ok areas.sum
  else .error "TypeError: Unrecognized fitness measure"

/-- `Evaluator.fit` (lines 153-222) with the external collaborators as
parameters: build the folds, run the per-fold loop, then reduce with
`test_classification` when `task_type == 'classification'`; for any other
task type the `return result` line hits an unbound local. -/
def Evaluator_fit (kfold_number n : Nat) (stratified : List (List Nat × List Nat))
    (trainFold : List Nat × List Nat → Except String (List (List ℚ) × List (List ℚ)))
    (task_type fitness_measure : String) (f1_scores : List ℚ)
    (roc_curve_col : Nat → Except String (List ℚ × List ℚ))
    (classes : Nat) : Except String ℚ :=
  match fit_fold_loop trainFold (fit_kfold_generator stratified kfold_number n) with
  | .error e => .error e
  | .ok (predicted_out, real_out) =>
    if task_type = "classification" then
      test_classification fitness_measure f1_scores roc_curve_col
        real_out.length predicted_out.length classes
    else
      .error "UnboundLocalError: local variable result referenced before assignment"

/-- `Evaluator.fit_generator` (lines 224-301) with the external collaborators
as parameters. -/
def Evaluator_fit_generator (kfold_number n : Nat)
    (stratified : List (List Nat × List Nat))
    (trainFold : List Nat × List Nat → Except String (List (List ℚ) × List (List ℚ)))
    (task_type fitness_measure : String) (f1_scores : List ℚ)
    (roc_curve_col : Nat → Except String (List ℚ × List ℚ))
    (classes : Nat) : Except String ℚ :=
  match fit_generator_fold_loop trainFold
      (fit_generator_kfold_generator stratified kfold_number n) with
  | .error e => .error e
  | .ok (predicted_out, real_out) =>
    if task_type = "classification" then
      test_classification fitness_measure f1_scores roc_curve_col
        real_out.length predicted_out.length classes
    else
      .error "UnboundLocalError: local variable result referenced before assignment"

/-! ## Concrete stores and individuals used by witnesses and counterexamples -/

/-- A father architecture: embedding, one `lstm` body gene, dense output. -/
def archFather : List Layer := [⟨"embedding", 0⟩, ⟨"lstm", 1⟩, ⟨"dense", 2⟩]

/-- A mother architecture whose body gene type (`cnn`) is disjoint from the
father's (`lstm`). -/
def archMother : List Layer := [⟨"embedding", 3⟩, ⟨"cnn", 4⟩, ⟨"dense", 5⟩]

/-- A mother architecture sharing the body gene type `lstm` with `archFather`. -/
def archMotherLstm : List Layer := [⟨"embedding", 3⟩, ⟨"lstm", 4⟩, ⟨"dense", 5⟩]

/-- A minimal-length (2-gene) mother architecture: embedding then the output
gene. -/
def archMotherShort : List Layer := [⟨"embedding", 9⟩, ⟨"dense", 77⟩]

/-- Father shell: architecture in cell 0, training dict in cell 4,
data-processing dict in cell 2. -/
def fatherEx : Individ := ⟨0, 4, 2⟩

/-- Mother shell: architecture in cell 1, training dict in cell 5,
data-processing dict in cell 3. -/
def motherEx : Individ := ⟨1, 5, 3⟩

/-- Fresh child shell on untouched cells. -/
def individEx : Individ := ⟨6, 7, 8⟩

/-- Store with disjoint parent body types and distinct `sentences_length`
values (father 10, mother 20). -/
def σex : Store where
  arch r := if r = 0 then archFather else if r = 1 then archMother else []
  dict r k :=
    if r = 2 ∧ k = "sentences_length" then 10
    else if r = 3 ∧ k = "sentences_length" then 20 else 0

/-- Store whose parents share the body type `lstm`. -/
def σex2 : Store where
  arch r := if r = 0 then archFather else if r = 1 then archMotherLstm else []
  dict _ _ := 0

/-- Store whose mother architecture has only 2 genes. -/
def σex3 : Store where
  arch r := if r = 0 then archFather else if r = 1 then archMotherShort else []
  dict _ _ := 0

/-- The store after running the `father_architecture` strategy on `σex`. -/
def fatherArchRunStore : Store :=
  match peform_pairing σex individEx fatherEx motherEx "father_architecture" 0 0 0 with
  | .ok p => p.1
  | .error _ => σex

/-- Father's architecture cell after the layers strategy on `σex3`
(the 2-gene mother). -/
def layersShortRun : List Layer :=
  match father_architecture_layers_pairing σex3 individEx fatherEx motherEx 0 0 with
  | .ok p => p.1.arch fatherEx.architecture
  | .error _ => []

/-- Store after the layers strategy on `σex2`. -/
def σL2 : Store :=
  match father_architecture_layers_pairing σex2 individEx fatherEx motherEx 0 0 with
  | .ok p => p.1
  | .error _ => σex2

/-- Child shell after the layers strategy on `σex2`. -/
def iL2 : Individ :=
  match father_architecture_layers_pairing σex2 individEx fatherEx motherEx 0 0 with
  | .ok p => p.2
  | .error _ => individEx

/-- Store after the parameter strategy on `σex2`. -/
def σP2 : Store :=
  match father_architecture_parameter_pairing σex2 individEx fatherEx motherEx 0 with
  | .ok p => p.1
  | .error _ => σex2

/-- Child shell after the parameter strategy on `σex2`. -/
def iP2 : Individ :=
  match father_architecture_parameter_pairing σex2 individEx fatherEx motherEx 0 with
  | .ok p => p.2
  | .error _ => individEx

/-- A per-fold trainer that always fails (models a compile/fit exception). -/
def trainFoldW : List Nat × List Nat → Except String (List (List ℚ) × List (List ℚ)) :=
  fun _ => .error "ResourceExhaustedError: OOM when allocating tensor"

/-- A per-class ROC computation that succeeds on class 0 with the perfect
curve and fails on every other class. -/
def rocW : Nat → Except String (List ℚ × List ℚ) :=
  fun i => if i = 0 then .ok ([0, 1], [0, 1]) else .error "ValueError: Only one class present"

/-- The per-class areas matching `rocW`: 1/2 for class 0, the substituted 0
elsewhere. -/
def aW : Nat → ℚ := fun i => if i = 0 then 1/2 else 0

/-! ## Helper lemmas -/

theorem np_random_choice_mem {α : Type} {l : List α} {r : Nat} {v : α}
    (h : np_random_choice l r = .ok v) : v ∈ l := by
  cases l with
  | nil => simp [np_random_choice] at h
  | cons x xs =>
    simp only [np_random_choice, Except.ok.injEq] at h
    subst h
    have hlt : r % (x :: xs).length < (x :: xs).length :=
      Nat.mod_lt _ (by simp)
    rw [List.getD_eq_getElem _ _ hlt]
    exact List.getElem_mem hlt

theorem mem_pyRange1 {c n : Nat} (h : c ∈ pyRange1 n) : 1 ≤ c ∧ c < n := by
  rw [pyRange1, List.mem_range'_1] at h
  omega

theorem last_mem_pyRange1 {n : Nat} (h : 2 ≤ n) : n - 1 ∈ pyRange1 n := by
  rw [pyRange1, List.mem_range'_1]
  omega

/-! ## Claim theorems -/

/-- C1: the spec's defined fallback for an empty layer-type intersection in
the `father_architecture_parameter` strategy does not happen in the code:
the fallback branch assigns father's genotype but does not return, so
control reaches `np.random.choice` on the empty intersection list, which
raises `ValueError`.  Evaluated here at parents whose body gene types
(`lstm` vs `cnn`) are disjoint. -/
theorem C1_empty_intersection_raises :
    common_types σex fatherEx motherEx = []
    ∧ peform_pairing σex individEx fatherEx motherEx
        "father_architecture_parameter" 0 0 0
      = .error "ValueError: a must be non-empty" := by
  constructor <;> rfl

/-- C4: `peform_pairing` with a `pairing_type` outside the five recognized
strategy tags returns `None` (no strategy applied, store untouched) and
raises nothing. -/
theorem C4_unrecognized_pairing_type_returns_none
    (σ : Store) (individ father mother : Individ) (pairing_type : String)
    (rf rm rt : Nat)
    (h1 : pairing_type ≠ "father_architecture")
    (h2 : pairing_type ≠ "father_architecture_layers")
    (h3 : pairing_type ≠ "father_architecture_parameter")
    (h4 : pairing_type ≠ "father_training")
    (h5 : pairing_type ≠ "father_data_processing") :
    peform_pairing σ individ father mother pairing_type rf rm rt = .ok (σ, none) := by
  unfold peform_pairing
  rw [if_neg h1, if_neg h2, if_neg h3, if_neg h4, if_neg h5]

/-- Witness for C4 at the concrete unrecognized tag `"crossover"`. -/
theorem C4_unrecognized_pairing_type_returns_none_witness :
    peform_pairing σex individEx fatherEx motherEx "crossover" 0 0 0
      = .ok (σex, none) :=
  C4_unrecognized_pairing_type_returns_none σex individEx fatherEx motherEx
    "crossover" 0 0 0 (by decide) (by decide) (by decide) (by decide) (by decide)

/-- C5 counterexample: the `cradle` in `architecture_interface.py` does
**not** raise for an unrecognized `data_type`; it falls off the end of the
function and returns `None`. -/
theorem C5_interface_cradle_silent_counterexample :
    ArchitectureInterface.cradle 1 "audio" "classification" = .ok none := by
  rfl

/-- C5 (amended): the `cradle` in `cradle.py` returns the text/image flavored
individual for `'text'`/`'image'` and raises `ValueError` naming the allowed
set for anything else; the duplicate `cradle` in `architecture_interface.py`
handles `'text'`/`'image'` identically but returns `None` (no error) for any
other value. -/
theorem C5_cradle_dispatch (epochs stage : Nat) (data_type task_type : String)
    (ht : data_type ≠ "text") (hi : data_type ≠ "image") :
    Cradle.cradle epochs "text" task_type = .ok (.individText epochs task_type)
    ∧ Cradle.cradle epochs "image" task_type = .ok (.individImage epochs task_type)
    ∧ Cradle.cradle epochs data_type task_type
        = .error "ValueError: Incorrect \"data_type\" argument.Available values: \"text\", \"image\""
    ∧ ArchitectureInterface.cradle stage "text" task_type
        = .ok (some (.individText stage task_type))
    ∧ ArchitectureInterface.cradle stage "image" task_type
        = .ok (some (.individImage stage task_type))
    ∧ ArchitectureInterface.cradle stage data_type task_type = .ok none := by
  refine ⟨rfl, rfl, ?_, rfl, rfl, ?_⟩
  · unfold Cradle.cradle
    rw [if_neg ht, if_neg hi]
  · unfold ArchitectureInterface.cradle
    rw [if_neg ht, if_neg hi]

/-- Witness for C5 (amended) at `data_type = "audio"`. -/
theorem C5_cradle_dispatch_witness :
    Cradle.cradle 3 "audio" "classification"
      = .error "ValueError: Incorrect \"data_type\" argument.Available values: \"text\", \"image\""
    ∧ ArchitectureInterface.cradle 3 "audio" "classification" = .ok none := by
  have h := C5_cradle_dispatch 3 3 "audio" "classification" (by decide) (by decide)
  exact ⟨h.2.2.1, h.2.2.2.2.2⟩

/-- C7: with `kfold_number == 1`, both `fit` and `fit_generator` build exactly
one fold whose train index list and test index list are both the full index
range `0..n-1`. -/
theorem C7_single_fold_degenerate (stratified : List (List Nat × List Nat)) (n : Nat) :
    fit_kfold_generator stratified 1 n = [(List.range n, List.range n)]
    ∧ fit_generator_kfold_generator stratified 1 n = [(List.range n, List.range n)] := by
  constructor <;> simp [fit_kfold_generator, fit_generator_kfold_generator]

/-- C10: the `device` setter stores the raw unrecognized string into the
`_device` field first and only then raises `ValueError`, so after the error
the field holds the raw string, whatever valid handle it held before. -/
theorem C10_device_setter_stores_raw_then_raises (old_device device : String)
    (h1 : device ≠ "cpu") (h2 : device ≠ "gpu") :
    device_setter old_device device
      = (device,
         some "ValueError: Incorrect \"device\" argument.Available values: \"gpu\", \"cpu\"") := by
  unfold device_setter
  rw [if_neg h1, if_neg h2]

/-- Witness for C10: setting `"tpu"` over the previously valid handle
`"/device:CPU:0"` leaves the field holding `"tpu"` and raises. -/
theorem C10_device_setter_stores_raw_then_raises_witness :
    device_setter "/device:CPU:0" "tpu"
      = ("tpu",
         some "ValueError: Incorrect \"device\" argument.Available values: \"gpu\", \"cpu\"") :=
  C10_device_setter_stores_raw_then_raises "/device:CPU:0" "tpu" (by decide) (by decide)

/-- C6: the `father_architecture` strategy gives the child father's
architecture (same reference, same gene list), mother's training parameters,
and mother's data processing except that `sentences_length` is overwritten
with father's value, so the child's input-shape field matches the parent that
supplied the architecture.  The one well-formedness hypothesis is that
mother's two dicts live in distinct cells. -/
theorem C6_father_architecture_genotype (σ : Store) (individ father mother : Individ)
    (hm : mother.training_parameters ≠ mother.data_processing) :
    ((father_architecture_pairing σ individ father mother).2).architecture
        = father.architecture
    ∧ (father_architecture_pairing σ individ father mother).1.arch
        ((father_architecture_pairing σ individ father mother).2).architecture
        = σ.arch father.architecture
    ∧ (∀ k, (father_architecture_pairing σ individ father mother).1.dict
        ((father_architecture_pairing σ individ father mother).2).training_parameters k
        = σ.dict mother.training_parameters k)
    ∧ (∀ k, k ≠ "sentences_length" →
        (father_architecture_pairing σ individ father mother).1.dict
          ((father_architecture_pairing σ individ father mother).2).data_processing k
        = σ.dict mother.data_processing k)
    ∧ (father_architecture_pairing σ individ father mother).1.dict
        ((father_architecture_pairing σ individ father mother).2).data_processing
        "sentences_length"
        = σ.dict father.data_processing "sentences_length" := by
  refine ⟨rfl, rfl, ?_, ?_, ?_⟩
  · intro k
    simp [father_architecture_pairing, writeDictKey, hm]
  · intro k hk
    simp [father_architecture_pairing, writeDictKey, hk]
  · simp [father_architecture_pairing, writeDictKey]

/-- Witness for C6 on the concrete store `σex`: the child's architecture
reference is father's and its `sentences_length` reads father's value 10. -/
theorem C6_father_architecture_genotype_witness :
    ((father_architecture_pairing σex individEx fatherEx motherEx).2).architecture
        = fatherEx.architecture
    ∧ (father_architecture_pairing σex individEx fatherEx motherEx).1.dict
        ((father_architecture_pairing σex individEx fatherEx motherEx).2).data_processing
        "sentences_length"
        = σex.dict fatherEx.data_processing "sentences_length" := by
  have h := C6_father_architecture_genotype σex individEx fatherEx motherEx (by decide)
  exact ⟨h.1, h.2.2.2.2⟩

/-- C2 counterexample: `perform_pairing` with the `father_architecture`
strategy mutates **mother's** genotype: mother's
`data_processing['sentences_length']` is 20 before the call and 10 (father's
value) after it, because the keyed write goes through the child's alias of
mother's dict. -/
theorem C2_mother_dict_mutated_counterexample :
    σex.dict motherEx.data_processing "sentences_length" = 20
    ∧ fatherArchRunStore.dict motherEx.data_processing "sentences_length" = 10 := by
  constructor <;> rfl

theorem layers_pairing_frame {σ σL : Store} {individ father mother iL : Individ}
    {rf rm : Nat}
    (hL : father_architecture_layers_pairing σ individ father mother rf rm
      = .ok (σL, iL)) :
    σL.dict = σ.dict
    ∧ (∀ r, r ≠ father.architecture → σL.arch r = σ.arch r)
    ∧ ∃ c a, c ∈ layers_candidates σ father ∧ a ∈ layers_candidates σ mother
        ∧ σL.arch father.architecture
            = (σ.arch father.architecture).set c
                ((σ.arch mother.architecture).getD a defaultLayer) := by
  unfold father_architecture_layers_pairing at hL
  split at hL
  · exact absurd hL (by simp)
  · rename_i changes_layer heqf
    split at hL
    · exact absurd hL (by simp)
    · rename_i alter_layer heqm
      simp only [Except.ok.injEq, Prod.mk.injEq] at hL
      obtain ⟨hσ, hi⟩ := hL
      subst hσ
      refine ⟨rfl, ?_, changes_layer, alter_layer,
        np_random_choice_mem heqf, np_random_choice_mem heqm, ?_⟩
      · intro r hr
        simp only [writeArch]
        rw [if_neg hr]
      · simp [writeArch]

theorem parameter_pairing_frame {σ σP : Store} {individ father mother iP : Individ}
    {rt : Nat}
    (hP : father_architecture_parameter_pairing σ individ father mother rt
      = .ok (σP, iP)) :
    σP.dict = σ.dict
    ∧ (∀ r, r ≠ father.architecture → σP.arch r = σ.arch r)
    ∧ ∃ t, t ∈ common_types σ father mother
        ∧ σP.arch father.architecture
            = (σ.arch father.architecture).set
                ((body_types σ father).indexOf t + 1)
                ((σ.arch mother.architecture).getD
                  ((body_types σ mother).indexOf t + 1) defaultLayer) := by
  unfold father_architecture_parameter_pairing at hP
  split at hP
  · exact absurd hP (by simp)
  · rename_i intersected_layer heqt
    simp only [Except.ok.injEq, Prod.mk.injEq] at hP
    obtain ⟨hσ, hi⟩ := hP
    subst hσ
    refine ⟨rfl, ?_, intersected_layer, np_random_choice_mem heqt, ?_⟩
    · intro r hr
      simp only [writeArch]
      rw [if_neg hr]
    · simp [writeArch]

/-- C2 (amended): pairing rebinds the child's fields to the parents' own
containers and then writes through them, so four of the five strategies
mutate a parent's genotype in the heap: `father_architecture` writes father's
`sentences_length` into mother's data_processing dict (every other cell and
key unchanged); `father_architecture_layers` and, on success,
`father_architecture_parameter` overwrite one body-indexed gene of father's
architecture list with a mother gene (dicts and all other architecture cells
unchanged); `father_data_processing` overwrites gene 0 of mother's
architecture list with father's gene 0; only `father_training` performs no
heap write and leaves both parents' genotypes exactly unchanged. -/
theorem C2_pairing_mutates_parents
    (σ : Store) (individ father mother : Individ) (rf rm rt : Nat)
    (σL σP : Store) (iL iP : Individ)
    (hL : father_architecture_layers_pairing σ individ father mother rf rm
      = .ok (σL, iL))
    (hP : father_architecture_parameter_pairing σ individ father mother rt
      = .ok (σP, iP)) :
    (father_training_pairing σ individ father mother).1 = σ
    ∧ (father_architecture_pairing σ individ father mother).1.arch = σ.arch
    ∧ (∀ r k, ¬(r = mother.data_processing ∧ k = "sentences_length") →
        (father_architecture_pairing σ individ father mother).1.dict r k
          = σ.dict r k)
    ∧ (father_architecture_pairing σ individ father mother).1.dict
        mother.data_processing "sentences_length"
        = σ.dict father.data_processing "sentences_length"
    ∧ σL.dict = σ.dict
    ∧ (∀ r, r ≠ father.architecture → σL.arch r = σ.arch r)
    ∧ (∃ c a, c ∈ layers_candidates σ father ∧ a ∈ layers_candidates σ mother
        ∧ σL.arch father.architecture
            = (σ.arch father.architecture).set c
                ((σ.arch mother.architecture).getD a defaultLayer))
    ∧ σP.dict = σ.dict
    ∧ (∀ r, r ≠ father.architecture → σP.arch r = σ.arch r)
    ∧ (∃ t, t ∈ common_types σ father mother
        ∧ σP.arch father.architecture
            = (σ.arch father.architecture).set
                ((body_types σ father).indexOf t + 1)
                ((σ.arch mother.architecture).getD
                  ((body_types σ mother).indexOf t + 1) defaultLayer))
    ∧ (father_data_processing_pairing σ individ father mother).1.dict = σ.dict
    ∧ (∀ r, r ≠ mother.architecture →
        (father_data_processing_pairing σ individ father mother).1.arch r
          = σ.arch r)
    ∧ (father_data_processing_pairing σ individ father mother).1.arch
        mother.architecture
        = (σ.arch mother.architecture).set 0
            ((σ.arch father.architecture).getD 0 defaultLayer) := by
  obtain ⟨hL1, hL2, hL3⟩ := layers_pairing_frame hL
  obtain ⟨hP1, hP2, hP3⟩ := parameter_pairing_frame hP
  refine ⟨rfl, rfl, ?_, ?_, hL1, hL2, hL3, hP1, hP2, hP3, rfl, ?_, ?_⟩
  · intro r k h
    simp only [father_architecture_pairing, writeDictKey]
    rw [if_neg h]
  · simp [father_architecture_pairing, writeDictKey]
  · intro r h
    simp only [father_data_processing_pairing, writeArch]
    rw [if_neg h]
  · simp [father_data_processing_pairing, writeArch]

/-- Witness for C2 (amended) on the concrete store `σex2`, where both
fallible strategies succeed: `father_training` leaves the store untouched and
the two architecture-swapping strategies leave every dict cell untouched. -/
theorem C2_pairing_mutates_parents_witness :
    (father_training_pairing σex2 individEx fatherEx motherEx).1 = σex2
    ∧ σL2.dict = σex2.dict
    ∧ σP2.dict = σex2.dict := by
  have h := C2_pairing_mutates_parents σex2 individEx fatherEx motherEx 0 0 0
    σL2 σP2 iL2 iP2 rfl rfl
  exact ⟨h.1, h.2.2.2.2.1, h.2.2.2.2.2.2.2.1⟩

/-- C3 counterexample: with a 2-gene mother architecture, the mother-side
candidate list `range(1, len(mother.architecture))` is exactly `[1]`, and
index 1 **is** mother's last (output-class) index — so the mother-side draw
selects mother's last gene (here it must).  Running the strategy indeed
installs mother's last gene `⟨"dense", 77⟩` into the father architecture. -/
theorem C3_mother_last_gene_selected_counterexample :
    layers_candidates σex3 motherEx = [1]
    ∧ (σex3.arch motherEx.architecture).length - 1 = 1
    ∧ (σex3.arch motherEx.architecture).getLast? = some ⟨"dense", 77⟩
    ∧ layersShortRun = [⟨"embedding", 0⟩, ⟨"dense", 77⟩, ⟨"dense", 2⟩] := by
  refine ⟨rfl, rfl, rfl, rfl⟩

/-- C3 (amended): in `father_architecture_layers`, the father-side target
index and the mother-side source index are both drawn from
`[1, len(architecture))` of the respective parent: neither can be 0, and the
last index is a selectable candidate on **both** sides (the mother-side range
does not exclude mother's last gene, and the father-side range can target
father's last gene). -/
theorem C3_layers_index_ranges (σ : Store) (father mother : Individ)
    (rf rm c a : Nat)
    (hc : np_random_choice (layers_candidates σ father) rf = .ok c)
    (ha : np_random_choice (layers_candidates σ mother) rm = .ok a) :
    (1 ≤ c ∧ c < (σ.arch father.architecture).length)
    ∧ (1 ≤ a ∧ a < (σ.arch mother.architecture).length)
    ∧ (2 ≤ (σ.arch father.architecture).length →
        (σ.arch father.architecture).length - 1 ∈ layers_candidates σ father)
    ∧ (2 ≤ (σ.arch mother.architecture).length →
        (σ.arch mother.architecture).length - 1 ∈ layers_candidates σ mother) := by
  refine ⟨mem_pyRange1 (np_random_choice_mem hc),
    mem_pyRange1 (np_random_choice_mem ha), ?_, ?_⟩
  · intro h
    exact last_mem_pyRange1 h
  · intro h
    exact last_mem_pyRange1 h

/-- Witness for C3 (amended) on the concrete store `σex2` with draws 1 and 1:
the chosen indices land in `[1, 3)` on both sides and index 2 — the last
index of both parents — is a candidate on both sides. -/
theorem C3_layers_index_ranges_witness :
    ((1 ≤ 2 ∧ 2 < (σex2.arch fatherEx.architecture).length)
    ∧ (1 ≤ 2 ∧ 2 < (σex2.arch motherEx.architecture).length)
    ∧ (2 ≤ (σex2.arch fatherEx.architecture).length →
        (σex2.arch fatherEx.architecture).length - 1 ∈ layers_candidates σex2 fatherEx)
    ∧ (2 ≤ (σex2.arch motherEx.architecture).length →
        (σex2.arch motherEx.architecture).length - 1 ∈ layers_candidates σex2 motherEx)) :=
  C3_layers_index_ranges σex2 fatherEx motherEx 1 1 2 2 (by rfl) (by rfl)

theorem fit_fold_loop_error {π : Type}
    {trainFold : List Nat × List Nat → Except String (List π × List π)}
    {folds : List (List Nat × List Nat)}
    (h : ∃ fold ∈ folds, ∃ e, trainFold fold = .error e) :
    fit_fold_loop trainFold folds
      = .error "ArithmeticError: Tensor could not be compiled" := by
  induction folds with
  | nil => obtain ⟨fold, hmem, _⟩ := h; simp at hmem
  | cons fold rest ih =>
    obtain ⟨f, hmem, e, he⟩ := h
    rw [List.mem_cons] at hmem
    cases hf : trainFold fold with
    | error e' => simp [fit_fold_loop, hf]
    | ok pr =>
      have hrest : ∃ fold ∈ rest, ∃ e, trainFold fold = .error e := by
        rcases hmem with rfl | hmem
        · rw [hf] at he; exact absurd he (by simp)
        · exact ⟨f, hmem, e, he⟩
      simp [fit_fold_loop, hf, ih hrest]

theorem fit_generator_fold_loop_error {π : Type}
    {trainFold : List Nat × List Nat → Except String (List π × List π)}
    {folds : List (List Nat × List Nat)}
    (h : ∃ fold ∈ folds, ∃ e, trainFold fold = .error e) :
    ∃ e, fit_generator_fold_loop trainFold folds = .error e := by
  induction folds with
  | nil => obtain ⟨fold, hmem, _⟩ := h; simp at hmem
  | cons fold rest ih =>
    obtain ⟨f, hmem, e, he⟩ := h
    rw [List.mem_cons] at hmem
    cases hf : trainFold fold with
    | error e' => exact ⟨e', by simp [fit_generator_fold_loop, hf]⟩
    | ok pr =>
      have hrest : ∃ fold ∈ rest, ∃ e, trainFold fold = .error e := by
        rcases hmem with rfl | hmem
        · rw [hf] at he; exact absurd he (by simp)
        · exact ⟨f, hmem, e, he⟩
      obtain ⟨e', he'⟩ := ih hrest
      exact ⟨e', by simp [fit_generator_fold_loop, hf, he']⟩

/-- C8: if the per-fold compile/fit step raises in any fold, the whole
evaluation fails: `fit` raises the single training-failure error
`ArithmeticError('Tensor could not be compiled')` and `fit_generator`
propagates the fold's exception; neither retries, skips the fold, or returns
a partial fitness result. -/
theorem C8_fold_failure_aborts_evaluation
    (kfold_number n : Nat) (stratified : List (List Nat × List Nat))
    (trainFold : List Nat × List Nat → Except String (List (List ℚ) × List (List ℚ)))
    (task_type fitness_measure : String) (f1_scores : List ℚ)
    (roc_curve_col : Nat → Except String (List ℚ × List ℚ)) (classes : Nat)
    (h : ∃ fold ∈ fit_kfold_generator stratified kfold_number n, ∃ e,
      trainFold fold = .error e)
    (h' : ∃ fold ∈ fit_generator_kfold_generator stratified kfold_number n, ∃ e,
      trainFold fold = .error e) :
    Evaluator_fit kfold_number n stratified trainFold task_type fitness_measure
        f1_scores roc_curve_col classes
      = .error "ArithmeticError: Tensor could not be compiled"
    ∧ ∃ e, Evaluator_fit_generator kfold_number n stratified trainFold task_type
        fitness_measure f1_scores roc_curve_col classes = .error e := by
  constructor
  · unfold Evaluator_fit
    rw [fit_fold_loop_error h]
  · obtain ⟨e, he⟩ := fit_generator_fold_loop_error h'
    refine ⟨e, ?_⟩
    unfold Evaluator_fit_generator
    rw [he]

/-- Witness for C8: a single degenerate fold whose trainer always raises. -/
theorem C8_fold_failure_aborts_evaluation_witness :
    Evaluator_fit 1 1 [] trainFoldW "classification" "AUC" [] rocW 2
      = .error "ArithmeticError: Tensor could not be compiled"
    ∧ ∃ e, Evaluator_fit_generator 1 1 [] trainFoldW "classification" "AUC" [] rocW 2
      = .error e := by
  have h := C8_fold_failure_aborts_evaluation 1 1 [] trainFoldW "classification"
    "AUC" [] rocW 2
    ⟨(List.range 1, List.range 1), by simp [fit_kfold_generator],
      "ResourceExhaustedError: OOM when allocating tensor", rfl⟩
    ⟨(List.range 1, List.range 1), by simp [fit_generator_kfold_generator],
      "ResourceExhaustedError: OOM when allocating tensor", rfl⟩
  exact h

theorem np_trapz_replicate_zero :
    ∀ (y : List ℚ) (n : Nat), np_trapz y (List.replicate n (0 : ℚ)) = 0
  | [], _ => rfl
  | [_], _ => by simp [np_trapz]
  | _ :: _ :: _, 0 => rfl
  | _ :: _ :: _, 1 => rfl
  | y1 :: y2 :: ys, (n + 2) => by
    have ih := np_trapz_replicate_zero (y2 :: ys) (n + 1)
    rw [List.replicate_succ] at ih
    rw [List.replicate_succ, List.replicate_succ]
    simp [np_trapz, ih]

theorem diffs_nonneg_replicate (q : ℚ) :
    ∀ n, diffs_nonneg (List.replicate n q) = true
  | 0 => rfl
  | 1 => rfl
  | (n + 2) => by
    have ih := diffs_nonneg_replicate q (n + 1)
    rw [List.replicate_succ] at ih
    rw [List.replicate_succ, List.replicate_succ]
    simp [diffs_nonneg, ih]

theorem sklearn_auc_zero_curve {nreal : Nat} (npred : Nat) (hn : 2 ≤ nreal) :
    sklearn_auc (List.replicate nreal (0 : ℚ)) (List.replicate npred (0 : ℚ))
      = .ok 0 := by
  unfold sklearn_auc
  rw [if_neg (by simp; omega), if_pos (diffs_nonneg_replicate 0 nreal),
    np_trapz_replicate_zero]

theorem auc_areas_eq {roc_curve_col : Nat → Except String (List ℚ × List ℚ)}
    {nreal npred : Nat} {a : Nat → ℚ} (hn : 2 ≤ nreal) :
    ∀ l : List Nat,
    (∀ i ∈ l, match roc_curve_col i with
      | .ok c => sklearn_auc c.1 c.2 = .ok (a i)
      | .error _ => a i = 0) →
    auc_areas roc_curve_col nreal npred l = .ok (l.map a)
  | [], _ => rfl
  | i :: is, h => by
    have hi := h i (by simp)
    have hrest := @auc_areas_eq roc_curve_col nreal npred a hn is
      (fun j hj => h j (by simp [hj]))
    unfold auc_areas
    cases hroc : roc_curve_col i with
    | ok c =>
      rw [hroc] at hi
      simp only [hroc]
      rw [hi, hrest]
      simp
    | error e =>
      rw [hroc] at hi
      simp only [hroc]
      rw [sklearn_auc_zero_curve npred hn, hrest]
      simp [hi]

/-- C9: in the `AUC` reduction over `classes` class indices, a class whose
ROC-curve computation fails contributes the substituted zero curve (area 0)
and the reduction continues; the returned score is the sum of the per-class
areas.  The hypothesis `2 ≤ nreal` reflects `sklearn.metrics.auc` needing at
least two points (the substituted zero curve has `len(real_out)` of them). -/
theorem C9_auc_zero_substitution
    (f1_scores : List ℚ) (roc_curve_col : Nat → Except String (List ℚ × List ℚ))
    (nreal npred classes : Nat) (a : Nat → ℚ) (hn : 2 ≤ nreal)
    (ha : ∀ i ∈ List.range classes, match roc_curve_col i with
      | .ok c => sklearn_auc c.1 c.2 = .ok (a i)
      | .error _ => a i = 0) :
    test_classification "AUC" f1_scores roc_curve_col nreal npred classes
      = .ok (((List.range classes).map a).sum) := by
  unfold test_classification
  rw [if_neg (by decide), if_pos rfl, auc_areas_eq hn (List.range classes) ha]

/-- Witness for C9: two classes, the ROC computation succeeding on class 0
with area 1/2 and failing on class 1, which contributes 0; the score is the
sum 1/2 + 0. -/
theorem C9_auc_zero_substitution_witness :
    test_classification "AUC" [] rocW 2 2 2 = .ok (((List.range 2).map aW).sum) :=
  C9_auc_zero_substitution [] rocW 2 2 2 aW (by decide) (by
    intro i hi
    rw [List.mem_range] at hi
    interval_cases i
    · show sklearn_auc [0, 1] [0, 1] = Except.ok (aW 0)
      norm_num [sklearn_auc, diffs_nonneg, np_trapz, aW]
    · simp [rocW, aW])
